import Mathlib

/-!
Verification development for the mruby-gosu binding layer.

The repository under verification ships two C headers, `src/include/image.h`
and `src/include/font.h`, declaring the interface of a binding layer between
the mruby scripting runtime and the Gosu multimedia library.  The headers
are embedded below as explicit declaration lists.  The behaviour of the
Native Handle Registry (bind / retrieve / release / constructors) is not
present in the sources, only its interface; those operations are modelled
from the specification text, as marked on each definition.
-/

namespace MrbGosu

/-- Wrapped native types exposed by the binding layer: image and font. -/
inductive WrappedType
| image
| font
deriving DecidableEq

/-- A C declaration appearing in one of the repository's headers:
an initializer function (`void mrb_gosu_<t>_init(mrb_state*, struct RClass*)`),
a native-handle accessor (`Gosu_Image *mrb_gosu_image_get_ptr(mrb_state*, mrb_value)`),
or a file-scope mutable class-pointer variable (`struct RClass *mrb_gosu_image;`). -/
inductive CDecl
| initFn (t : WrappedType)
| getPtrFn (t : WrappedType)
| globalClassVar (t : WrappedType)
deriving DecidableEq

/-- Declarations of `src/include/image.h`, in file order: the file-scope
mutable global `struct RClass *mrb_gosu_image;`, the initializer
`mrb_gosu_image_init`, and the accessor `mrb_gosu_image_get_ptr`. -/
def image_h_decls : List CDecl :=
  [.globalClassVar .image, .initFn .image, .getPtrFn .image]

/-- Declarations of `src/include/font.h`, in file order: only the initializer
`mrb_gosu_font_init`.  (The header also includes `image.h`, which re-exposes
the image declarations; it declares nothing else of its own.) -/
def font_h_decls : List CDecl :=
  [.initFn .font]

/-- All declarations exposed by the repository's headers. -/
def headerDecls : List CDecl := image_h_decls ++ font_h_decls

/-- True exactly on registration entry points (the `*_init` functions). -/
def isInitFn : CDecl → Bool
| .initFn _ => true
| _ => false

/-- The registration entry points among all header declarations. -/
def initEntryPoints : List CDecl := headerDecls.filter isInitFn

/-- The wrapped type whose native handle a declaration returns, if any:
`mrb_gosu_image_get_ptr` returns a `Gosu_Image *`; no other declared
operation returns a native handle. -/
def returnsNativeHandle : CDecl → Option WrappedType
| .getPtrFn t => some t
| _ => none

/-- Modelled from the spec: the error taxonomy of section 7 —
`TypeMismatchError`, `AlreadyBoundError`, `UseAfterFreeError`,
`NativeOperationError`. -/
inductive BindingError
| typeMismatch
| alreadyBound
| useAfterFree
| nativeOperation
deriving DecidableEq

/-- Modelled from the spec: the binding state of a scripting object —
never bound, bound to a native handle, or released. -/
inductive BindingState
| unbound
| bound (h : Nat)
| released
deriving DecidableEq

/-- Modelled from the spec: a scripting object carries a type tag (its
class) and its binding state.  Native handles are modelled as naturals. -/
structure ScriptingObject where
  tag : WrappedType
  state : BindingState
deriving DecidableEq

/-- Modelled from the spec (section 4.1, absent from src/ which holds only
declarations): `bind(scriptingObject, resource)` attaches a native handle to
a fresh scripting object; no return value beyond the updated object state;
fails with `AlreadyBoundError` if the object has any prior binding. -/
def bind (o : ScriptingObject) (h : Nat) : Except BindingError ScriptingObject :=
  match o.state with
  | .unbound => .ok ⟨o.tag, .bound h⟩
  | _ => .error .alreadyBound

/-- Modelled from the spec (section 4.1, the behaviour behind the declared
`mrb_gosu_image_get_ptr`): `retrieve` checks on every call that the object's
tag matches the expected wrapped type, failing with `TypeMismatchError` on a
mismatch or if the object is unbound, and with `UseAfterFreeError` after
release; only a matching, bound object yields its handle. -/
def retrieve (expected : WrappedType) (o : ScriptingObject) : Except BindingError Nat :=
  if o.tag = expected then
    match o.state with
    | .unbound => .error .typeMismatch
    | .bound h => .ok h
    | .released => .error .useAfterFree
  else .error .typeMismatch

/-- Modelled from the spec (section 4.1, absent from src/): `release` frees
the native resource on its first invocation and is an idempotent no-op
afterwards.  The second component counts native frees performed by the call. -/
def release (o : ScriptingObject) : ScriptingObject × Nat :=
  match o.state with
  | .bound _ => (⟨o.tag, .released⟩, 1)
  | _ => (o, 0)

/-- Iterated release: the collector or explicit disposal logic firing `n`
times; the second component is the total number of native frees performed. -/
def releaseTimes (o : ScriptingObject) : Nat → ScriptingObject × Nat
| 0 => (o, 0)
| n + 1 =>
  let r := release o
  let rest := releaseTimes r.1 n
  (rest.1, r.2 + rest.2)

/-- A constructor argument: a file path that is either valid (the native
library yields handle `h`) or malformed/nonexistent. -/
inductive Path
| valid (h : Nat)
| malformed
deriving DecidableEq

/-- Modelled from the spec (section 8 scenario, absent from src/): the Image
constructor.  Given the registry (the list of registered bindings) and a
path, it returns the constructed object or an error, the updated registry,
and the number of native resources leaked.  A malformed path fails with
`NativeOperationError`, registers no binding, and leaks nothing; a valid
path allocates a handle and binds it to a fresh Image object. -/
def constructImage (reg : List ScriptingObject) (p : Path) :
    Except BindingError ScriptingObject × List ScriptingObject × Nat :=
  match p with
  | .malformed => (.error .nativeOperation, reg, 0)
  | .valid h =>
    match bind ⟨.image, .unbound⟩ h with
    | .ok o => (.ok o, o :: reg, 0)
    | .error e => (.error e, reg, 0)

/-- Modelled from the spec: an entry of the scripting runtime's class table,
recording that the type's constructor, methods and finalizer are installed. -/
structure ClassEntry where
  hasConstructor : Bool
  hasMethods : Bool
  hasFinalizer : Bool
deriving DecidableEq

/-- Modelled from the spec: the runtime's class table for the two wrapped
types. -/
structure ClassTable where
  image : Option ClassEntry
  font : Option ClassEntry
deriving DecidableEq

/-- A fully installed class entry: constructor, methods and finalizer. -/
def fullEntry : ClassEntry := ⟨true, true, true⟩

/-- Modelled from the spec (behaviour of the declared `mrb_gosu_image_init`):
registers the Image class — constructor, methods, finalizer — into the class
table. -/
def mrb_gosu_image_install (t : ClassTable) : ClassTable := ⟨some fullEntry, t.font⟩

/-- Modelled from the spec (behaviour of the declared `mrb_gosu_font_init`):
registers the Font class — constructor, methods, finalizer — into the class
table. -/
def mrb_gosu_font_install (t : ClassTable) : ClassTable := ⟨t.image, some fullEntry⟩

/-- The file-scope mutable global `struct RClass *mrb_gosu_image;` of
`image.h`, shared by every runtime instance in the process: running the
image registration for a runtime whose Image class is `cls` overwrites the
single global with `cls`, whatever it held before. -/
def mrb_gosu_image_classvar_write (_prev : Option Nat) (cls : Nat) : Option Nat :=
  some cls

lemma releaseTimes_released (t : WrappedType) (m : Nat) :
    releaseTimes ⟨t, .released⟩ m = (⟨t, .released⟩, 0) := by
  induction m with
  | zero => rfl
  | succ m ih => simp [releaseTimes, release, ih]

/-- C1: for every handle and every fresh scripting object of the expected
type, a successful `bind` of that handle followed by `retrieve` returns a
handle equal to the one passed to `bind` (for the Image type, `retrieve` is
the declared accessor `mrb_gosu_image_get_ptr`). -/
theorem c1_bind_then_retrieve (t : WrappedType) (h : Nat) (o o' : ScriptingObject)
    (hfresh : o.state = .unbound) (htag : o.tag = t)
    (hb : bind o h = .ok o') :
    retrieve t o' = .ok h := by
  obtain ⟨tg, st⟩ := o
  simp only at hfresh htag
  subst hfresh
  subst htag
  simp only [bind, Except.ok.injEq] at hb
  subst hb
  simp [retrieve]

theorem c1_witness : retrieve .image ⟨.image, .bound 5⟩ = .ok 5 :=
  c1_bind_then_retrieve .image 5 ⟨.image, .unbound⟩ ⟨.image, .bound 5⟩ rfl rfl rfl

/-- C2: `retrieve` yields a handle only when the object's type tag matches
the expected wrapped type, and on every retrieval a mismatched tag fails
with `TypeMismatchError` instead of dereferencing. -/
theorem c2_retrieve_checks_tag (t : WrappedType) (o : ScriptingObject) :
    (∀ h : Nat, retrieve t o = .ok h → o.tag = t) ∧
    (o.tag ≠ t → retrieve t o = .error .typeMismatch) := by
  constructor
  · intro h hok
    by_contra hne
    simp [retrieve, hne] at hok
  · intro hne
    simp [retrieve, hne]

theorem c2_witness : retrieve .font ⟨.image, .bound 5⟩ = .error .typeMismatch :=
  (c2_retrieve_checks_tag .font ⟨.image, .bound 5⟩).2 (by decide)

/-- C3: for every bound object, however many times the collector or explicit
disposal logic fires `release` (at least once), the native resource is freed
exactly once: the first invocation frees it and every later one is a no-op. -/
theorem c3_release_exactly_once (t : WrappedType) (h : Nat) (n : Nat) (hn : 1 ≤ n) :
    releaseTimes ⟨t, .bound h⟩ n = (⟨t, .released⟩, 1) := by
  cases n with
  | zero => exact absurd hn (by decide)
  | succ m => simp [releaseTimes, release, releaseTimes_released]

theorem c3_witness : releaseTimes ⟨.image, .bound 9⟩ 3 = (⟨.image, .released⟩, 1) :=
  c3_release_exactly_once .image 9 3 (by decide)

/-- C4: for every scripting object whose binding has been released, every
subsequent `retrieve` fails with `UseAfterFreeError` and never returns the
freed handle. -/
theorem c4_retrieve_use_after_free (t : WrappedType) (o : ScriptingObject)
    (htag : o.tag = t) (hrel : o.state = .released) :
    retrieve t o = .error .useAfterFree := by
  obtain ⟨tg, st⟩ := o
  simp only at htag hrel
  subst htag
  subst hrel
  simp [retrieve]

theorem c4_witness : retrieve .image ⟨.image, .released⟩ = .error .useAfterFree :=
  c4_retrieve_use_after_free .image ⟨.image, .released⟩ rfl rfl

/-- C5: for every scripting object that was never bound, `retrieve` fails
with `TypeMismatchError` — whatever wrapped type was expected — not with a
handle and not with a different error. -/
theorem c5_retrieve_unbound (t : WrappedType) (o : ScriptingObject)
    (hun : o.state = .unbound) :
    retrieve t o = .error .typeMismatch := by
  obtain ⟨tg, st⟩ := o
  simp only at hun
  subst hun
  by_cases htg : tg = t <;> simp [retrieve, htg]

theorem c5_witness : retrieve .image ⟨.image, .unbound⟩ = .error .typeMismatch :=
  c5_retrieve_unbound .image ⟨.image, .unbound⟩ rfl

/-- C6: `bind` succeeds exactly on objects with no prior binding — returning
no value beyond the updated object state — and fails with
`AlreadyBoundError` on any object that already has a binding. -/
theorem c6_bind_spec (o : ScriptingObject) (h : Nat) :
    (o.state = .unbound → bind o h = .ok ⟨o.tag, .bound h⟩) ∧
    (o.state ≠ .unbound → bind o h = .error .alreadyBound) := by
  obtain ⟨tg, st⟩ := o
  cases st <;> simp [bind]

theorem c6_witness :
    bind ⟨.image, .unbound⟩ 7 = .ok ⟨.image, .bound 7⟩ ∧
    bind ⟨.image, .bound 3⟩ 7 = .error .alreadyBound :=
  ⟨(c6_bind_spec ⟨.image, .unbound⟩ 7).1 rfl,
   (c6_bind_spec ⟨.image, .bound 3⟩ 7).2 (by decide)⟩

/-- C7: constructing an Image from a malformed or nonexistent path fails
with `NativeOperationError`, leaves the registry unchanged (no binding is
registered), and leaks no native resource; the error is returned to the
caller, not swallowed. -/
theorem c7_construct_malformed (reg : List ScriptingObject) :
    constructImage reg .malformed = (.error .nativeOperation, reg, 0) := rfl

/-- C8: the headers expose exactly two registration entry points, one per
wrapped type (image then font); each registration installs the type's
constructor, methods and finalizer into the class table, and each
registration routine is idempotent. -/
theorem c8_registration_entry_points (tbl : ClassTable) :
    initEntryPoints = [.initFn .image, .initFn .font] ∧
    mrb_gosu_image_install (mrb_gosu_image_install tbl) = mrb_gosu_image_install tbl ∧
    mrb_gosu_font_install (mrb_gosu_font_install tbl) = mrb_gosu_font_install tbl ∧
    (mrb_gosu_image_install tbl).image = some fullEntry ∧
    (mrb_gosu_font_install tbl).font = some fullEntry ∧
    fullEntry.hasConstructor = true ∧
    fullEntry.hasMethods = true ∧
    fullEntry.hasFinalizer = true :=
  ⟨rfl, rfl, rfl, rfl, rfl, rfl, rfl, rfl⟩

/-- C9: `image.h` declares the Image class pointer as a file-scope mutable
global, so when two runtime instances with distinct Image classes both run
the image registration, the second write overwrites the class pointer the
first runtime installed: per-runtime isolation fails for this variable. -/
theorem c9_global_classvar_overwritten (c1 c2 : Nat) (hne : c1 ≠ c2) :
    CDecl.globalClassVar .image ∈ image_h_decls ∧
    mrb_gosu_image_classvar_write (mrb_gosu_image_classvar_write none c1) c2 = some c2 ∧
    mrb_gosu_image_classvar_write (mrb_gosu_image_classvar_write none c1) c2 ≠ some c1 := by
  refine ⟨by decide, rfl, ?_⟩
  simp [mrb_gosu_image_classvar_write]
  exact fun hc => hne hc.symm

theorem c9_witness :
    CDecl.globalClassVar .image ∈ image_h_decls ∧
    mrb_gosu_image_classvar_write (mrb_gosu_image_classvar_write none 0) 1 = some 1 ∧
    mrb_gosu_image_classvar_write (mrb_gosu_image_classvar_write none 0) 1 ≠ some 0 :=
  c9_global_classvar_overwritten 0 1 (by decide)

/-- C10: the headers declare a native-handle accessor only for the Image
type (`mrb_gosu_image_get_ptr`); no declaration in either header returns
the Font type's native handle. -/
theorem c10_font_has_no_handle_accessor :
    CDecl.getPtrFn .image ∈ image_h_decls ∧
    ∀ d ∈ headerDecls, returnsNativeHandle d ≠ some .font := by
  decide

theorem c10_witness : returnsNativeHandle (CDecl.initFn .font) ≠ some .font :=
  c10_font_has_no_handle_accessor.2 (CDecl.initFn .font) (by decide)

end MrbGosu
